import Mathlib

/-
Shallow embedding of the rawfin browser API client (the RawfinAPI facade,
its AuthAPI and EpisodesAPI sub-clients, and the page-load auth-callback
handler). JS runtime values are modelled explicitly: JSON bodies as a small
value type, thrown JS errors by their name and message, the object spread
used to build the fetch config by an operation with the exact key-overwrite
semantics of the JS spread, and localStorage as a two-slot record. Network
effects are passed in as data: every fetch outcome is a parameter, so the
classification, retry and auth-cascade logic become pure functions on it.
-/

/-- Model of a JSON value as seen by the client. Response bodies are opaque
to the client code (it only ever stores or returns them whole), so a value
is either an object with flat string fields (enough to express the empty
object used for defaults) or an abstract value carrying its text and its
JS truthiness. -/
inductive JsValue where
  | obj (fields : List (String × String))
  | raw (text : String) (truthy : Bool)
deriving DecidableEq, Repr

/-- Truthiness of a JsValue under JS coercion: every object is truthy, an
abstract value carries its own truthiness. -/
def JsValue.isTruthy : JsValue → Bool
  | JsValue.obj _ => true
  | JsValue.raw _ b => b

/-- A thrown JS error value that is not an APIError, identified by its name
(for the AbortError check in the catch block) and message. -/
structure JsError where
  name : String
  message : String
deriving DecidableEq, Repr

/-- The APIError class: name is set to APIError by the constructor, data
defaults to the empty object, mirroring constructor(message, status, data = {}). -/
structure APIError where
  name : String := "APIError"
  message : String
  status : Nat
  data : JsValue := JsValue.obj []
deriving DecidableEq, Repr

/-- A value thrown inside the request try block: either an APIError built by
the client code, or a raw JS error surfaced by the transport or JSON parse.
The instanceof APIError test in shouldRetry distinguishes the constructors. -/
inductive Thrown where
  | api (e : APIError)
  | js (e : JsError)
deriving DecidableEq, Repr

/-- Name of a thrown value, as read by the error.name check in the catch
block: an APIError carries the name field its constructor set. -/
def Thrown.errName : Thrown → String
  | Thrown.api e => e.name
  | Thrown.js e => e.name

deriving instance DecidableEq for Except

/-- Outcome of one fetch call as reported by the transport: either a
response with an HTTP status and the result of parsing its body as JSON
(a parse failure is a thrown JS error, SyntaxError in practice, AbortError
when the timeout fires during the body read), or a rejection with a JS
error (AbortError when the timeout fired, transport errors otherwise). -/
inductive FetchResult where
  | response (status : Nat) (body : Except JsError JsValue)
  | reject (e : JsError)
deriving DecidableEq, Repr

/-- The RawfinAPI facade configuration fields, with the values set by the
constructor as defaults. -/
structure RawfinAPI where
  baseURL : String := "https://rawfin.tv/api"
  timeout : Nat := 10000
  retryAttempts : Nat := 3
  retryDelay : Nat := 1000
deriving DecidableEq, Repr

/-- The client instance built at load by new RawfinAPI(). -/
def RawfinAPI.defaultClient : RawfinAPI := {}

/-- The options argument of request: the three fields the client code reads
or forwards. None means the caller did not put the key on the object. -/
structure RequestOptions where
  method : Option String := none
  headers : Option (List (String × String)) := none
  body : Option String := none
deriving DecidableEq, Repr

/-- JS truthiness of an optional string: null and the empty string are
falsy, every other string truthy. -/
def jsTruthyStr : Option String → Bool
  | none => false
  | some s => !(s == "")

/-- Assignment of one key on a JS object modelled as an ordered assoc list:
an existing key keeps its position and gets the new value, a new key is
appended, as in JS property assignment and spread. -/
def jsObjSet (o : List (String × String)) (k v : String) : List (String × String) :=
  if o.any (fun p => p.1 == k) then o.map (fun p => if p.1 == k then (k, v) else p)
  else o ++ [(k, v)]

/-- JS object spread of ext into base: every own key of ext is assigned
onto base in order. -/
def jsObjSpread (base ext : List (String × String)) : List (String × String) :=
  ext.foldl (fun acc p => jsObjSet acc p.1 p.2) base

/-- The method field of the fetch config. The literal first sets
options.method or GET, then the trailing spread of options re-assigns
options.method verbatim whenever the caller put a method key on options,
so a caller-supplied method value wins even when falsy. -/
def RawfinAPI.configMethod (opts : RequestOptions) : String :=
  match opts.method with
  | none => "GET"
  | some m => m

/-- The headers field of the fetch config. The literal first builds the
merge of the Content-Type default with the spread of options.headers, but
the trailing spread of options then overwrites the headers key with
options.headers verbatim whenever the caller supplied one, discarding the
merge; without a caller headers key the merged default object remains. -/
def RawfinAPI.configHeaders (opts : RequestOptions) : List (String × String) :=
  let merged := jsObjSpread [("Content-Type", "application/json")] (opts.headers.getD [])
  match opts.headers with
  | some hs => hs
  | none => merged

/-- Headers of the outgoing request: the config headers, with Authorization
assigned to Bearer token when getAuthToken returned a truthy token. -/
def RawfinAPI.requestHeaders (token : Option String) (opts : RequestOptions) : List (String × String) :=
  let hs := RawfinAPI.configHeaders opts
  if jsTruthyStr token then jsObjSet hs "Authorization" ("Bearer " ++ token.getD "") else hs

/-- The outgoing request as handed to fetch: URL built by appending the
endpoint to baseURL, plus method, headers and body from the config. -/
structure RequestDescriptor where
  url : String
  method : String
  headers : List (String × String)
  body : Option String
deriving DecidableEq, Repr

/-- Descriptor of the single fetch call performed by request(endpoint, options)
for a given stored token. -/
def RawfinAPI.buildRequest (api : RawfinAPI) (token : Option String)
    (endpoint : String) (opts : RequestOptions) : RequestDescriptor :=
  { url := api.baseURL ++ endpoint
    method := RawfinAPI.configMethod opts
    headers := RawfinAPI.requestHeaders token opts
    body := opts.body }

/-- The Response.ok predicate of fetch: status in the range 200 to 299. -/
def jsResponseOk (status : Nat) : Bool :=
  decide (200 ≤ status ∧ status ≤ 299)

/-- The try block of request, after the fetch outcome is known: a rejected
fetch propagates its error; a response with a non-ok status throws an
APIError carrying the status and the parsed body (empty object when the
body parse failed, via the catch on response.json()); an ok response
returns the parsed body, a failing parse of an ok body throws the parse
error. -/
def RawfinAPI.tryBlock (fr : FetchResult) : Except Thrown JsValue :=
  match fr with
  | FetchResult.reject e => Except.error (Thrown.js e)
  | FetchResult.response status body =>
      if jsResponseOk status then
        match body with
        | Except.ok v => Except.ok v
        | Except.error e => Except.error (Thrown.js e)
      else
        Except.error (Thrown.api
          { message := "API Error: " ++ toString status
            status := status
            data := match body with
                    | Except.ok v => v
                    | Except.error _ => JsValue.obj [] })

/-- Result of one request call: the outcome, plus whether the timeout timer
was cleared before returning (clearTimeout runs right after the fetch
resolves and again at the top of the catch block). -/
structure RequestResult where
  outcome : Except Thrown JsValue
  timeoutCleared : Bool
deriving DecidableEq, Repr

/-- One full run of request for a given fetch outcome: the catch block
clears the timer, maps a caught error named AbortError to
APIError(Request timeout, 408) with the constructor default empty-object
data, and re-raises every other caught error unchanged. -/
def RawfinAPI.requestRun (fr : FetchResult) : RequestResult :=
  match RawfinAPI.tryBlock fr with
  | Except.ok v => { outcome := Except.ok v, timeoutCleared := true }
  | Except.error t =>
      if t.errName = "AbortError" then
        { outcome := Except.error (Thrown.api { message := "Request timeout", status := 408 })
          timeoutCleared := true }
      else
        { outcome := Except.error t, timeoutCleared := true }

/-- The outcome of one request call, ignoring the timer bookkeeping. -/
def RawfinAPI.requestOutcome (fr : FetchResult) : Except Thrown JsValue :=
  (RawfinAPI.requestRun fr).outcome

/-- The shouldRetry classifier: retry only APIError failures whose status
is at least 500 or exactly 429; any other thrown value is not retried. -/
def RawfinAPI.shouldRetry : Thrown → Bool
  | Thrown.api e => decide (500 ≤ e.status ∨ e.status = 429)
  | Thrown.js _ => false

/-- Whether one fetch outcome yields a retryable failure of request. -/
def RawfinAPI.retryableOutcome (fr : FetchResult) : Bool :=
  match RawfinAPI.requestOutcome fr with
  | Except.ok _ => false
  | Except.error e => RawfinAPI.shouldRetry e

/-- Observable trace of requestWithRetry: the final outcome, the delays
awaited between attempts in order, and the attempt numbers used in order. -/
structure RetryTrace where
  result : Except Thrown JsValue
  delays : List Nat
  attempts : List Nat
deriving DecidableEq, Repr

/-- The requestWithRetry recursion. The fetch outcome of attempt k is
results k. A success returns at once; a failure recurses with attempt + 1
after a delay of retryDelay * attempt when attempt < retryAttempts and the
failure is retryable, and otherwise re-raises the failure. -/
def RawfinAPI.requestWithRetry (api : RawfinAPI) (results : Nat → FetchResult)
    (attempt : Nat := 1) : RetryTrace :=
  match RawfinAPI.requestOutcome (results attempt) with
  | Except.ok v => { result := Except.ok v, delays := [], attempts := [attempt] }
  | Except.error e =>
      if h : attempt < api.retryAttempts ∧ RawfinAPI.shouldRetry e = true then
        let r := RawfinAPI.requestWithRetry api results (attempt + 1)
        { result := r.result
          delays := api.retryDelay * attempt :: r.delays
          attempts := attempt :: r.attempts }
      else { result := Except.error e, delays := [], attempts := [attempt] }
termination_by api.retryAttempts - attempt
decreasing_by have := h.1; omega

/-- The two localStorage slots used by the client: rawfin_auth_token and
rawfin_user_data (the latter stored JSON-serialized, modelled by value). -/
structure Storage where
  token : Option String := none
  userData : Option JsValue := none
deriving DecidableEq, Repr

/-- getAuthToken reads the token slot. -/
def Storage.getAuthToken (st : Storage) : Option String := st.token

/-- setAuthToken stores a truthy token and removes the slot otherwise. -/
def Storage.setAuthToken (st : Storage) (token : Option String) : Storage :=
  if jsTruthyStr token then { st with token := token } else { st with token := none }

/-- JS truthiness of an optional JsValue: null is falsy, a value keeps its
own truthiness. -/
def jsTruthyVal : Option JsValue → Bool
  | none => false
  | some v => v.isTruthy

/-- setUserData stores truthy data and removes the slot otherwise. -/
def Storage.setUserData (st : Storage) (data : Option JsValue) : Storage :=
  if jsTruthyVal data then { st with userData := data } else { st with userData := none }

/-- AuthAPI.logout: clear the token slot, clear the user-data slot, then
attempt the backend POST to /auth/logout whose fetch outcome is fr; a
success returns its payload, a failure is logged and swallowed so the
caller sees undefined, never a thrown error. -/
def AuthAPI.logout (st : Storage) (fr : FetchResult) : Storage × Option JsValue :=
  let st1 := Storage.setUserData (Storage.setAuthToken st none) none
  match RawfinAPI.requestOutcome fr with
  | Except.ok v => (st1, some v)
  | Except.error _ => (st1, none)

/-- AuthAPI.getProfile: on request success store the payload via
setUserData and return it; on any failure run logout (whose backend call
has fetch outcome logoutFr) and re-raise the original failure. -/
def AuthAPI.getProfile (st : Storage) (fr logoutFr : FetchResult) :
    Storage × Except Thrown JsValue :=
  match RawfinAPI.requestOutcome fr with
  | Except.ok v => (Storage.setUserData st (some v), Except.ok v)
  | Except.error e => ((AuthAPI.logout st logoutFr).1, Except.error e)

/-- AuthAPI.isAuthenticated: double negation of getAuthToken, true exactly
when a truthy token is stored. -/
def AuthAPI.isAuthenticated (st : Storage) : Bool :=
  jsTruthyStr (Storage.getAuthToken st)

/-- EpisodesAPI.getRecent: the list of fetch calls it issues, namely the
single request to /episodes/recent?limit=<limit> with empty options. -/
def EpisodesAPI.getRecent (api : RawfinAPI) (token : Option String)
    (limit : Nat := 6) : List RequestDescriptor :=
  [RawfinAPI.buildRequest api token ("/episodes/recent?limit=" ++ toString limit) {}]

/-- Whether pat is an initial segment of s, over character lists. -/
def startsWithChars : List Char → List Char → Bool
  | _, [] => true
  | [], _ :: _ => false
  | c :: cs, d :: ds => c == d && startsWithChars cs ds

/-- Whether pat occurs contiguously in s, over character lists: at the
front, or anywhere in the tail. -/
def containsChars (pat : List Char) : List Char → Bool
  | [] => startsWithChars [] pat
  | c :: cs => startsWithChars (c :: cs) pat || containsChars pat cs

/-- The String.includes test of JS: the pattern occurs contiguously in s. -/
def jsIncludes (s pat : String) : Bool :=
  containsChars pat.toList s.toList

/-- Observable page effects of the load-time auth-callback block:
navigations as pairs of target URL and delay in milliseconds (0 for an
immediate assignment to location.href, 3000 for the setTimeout branch),
the showNotification call if any as message and level, and whether a
profile fetch was started. -/
structure PageEffects where
  navigations : List (String × Nat) := []
  pageNotice : Option (String × String) := none
  profileFetchAttempted : Bool := false
deriving DecidableEq, Repr

/-- The load-time auth-callback block: when the pathname includes
/auth/callback, read the token and error query parameters; a truthy token
is stored and a profile fetch started, navigating to the root on profile
success; otherwise a truthy error shows the failure notice and navigates
to the root after 3000 ms; otherwise nothing happens. -/
def handleAuthCallback (st : Storage) (pathname : String)
    (query : List (String × String)) (profileFr logoutFr : FetchResult) :
    Storage × PageEffects :=
  if jsIncludes pathname "/auth/callback" then
    let token := List.lookup "token" query
    let error := List.lookup "error" query
    if jsTruthyStr token then
      let st1 := Storage.setAuthToken st token
      let pr := AuthAPI.getProfile st1 profileFr logoutFr
      match pr.2 with
      | Except.ok _ =>
          (pr.1, { navigations := [("/", 0)], profileFetchAttempted := true })
      | Except.error _ =>
          (pr.1, { profileFetchAttempted := true })
    else if jsTruthyStr error then
      (st, { navigations := [("/", 3000)]
             pageNotice := some ("Authentication failed. Please try again.", "error") })
    else (st, {})
  else (st, {})

/-- Helper: after assigning key k on a JS object, looking k up yields the
assigned value, whether k was present (overwritten in place) or new
(appended). -/
theorem lookup_jsObjSet_self (o : List (String × String)) (k v : String) :
    List.lookup k (jsObjSet o k v) = some v := by
  induction o with
  | nil => simp [jsObjSet, List.lookup]
  | cons p rest ih =>
    by_cases hp : p.1 = k
    · have hb : (p.1 == k) = true := by simp [hp]
      simp [jsObjSet, List.any_cons, hb, hp, List.lookup]
    · have hb : (p.1 == k) = false := beq_eq_false_iff_ne.mpr hp
      have hkb : (k == p.1) = false := beq_eq_false_iff_ne.mpr (fun h => hp h.symm)
      by_cases ha : rest.any (fun q => q.1 == k) = true
      · simp only [jsObjSet, List.any_cons, hb, ha, Bool.false_or, if_true, if_false,
          List.map_cons, List.lookup, hkb] at ih ⊢
        simpa [hb, ha] using ih
      · have ha' : rest.any (fun q => q.1 == k) = false := by
          cases hq : rest.any (fun q => q.1 == k)
          · rfl
          · exact absurd hq ha
        simp only [jsObjSet, List.any_cons, hb, ha', Bool.false_or, if_false,
          List.cons_append, List.lookup, hkb] at ih ⊢
        simpa [ha'] using ih

/-- Helper: looking up a key that appears on no entry yields none. -/
theorem lookup_eq_none_of_no_key (k : String) (o : List (String × String))
    (h : o.all (fun p => !(p.1 == k)) = true) : List.lookup k o = none := by
  induction o with
  | nil => rfl
  | cons p rest ih =>
    simp only [List.all_cons, Bool.and_eq_true, Bool.not_eq_true'] at h
    have hkb : (k == p.1) = false :=
      beq_eq_false_iff_ne.mpr (fun hh => (beq_eq_false_iff_ne.mp h.1) hh.symm)
    simp only [List.lookup, hkb]
    exact ih h.2

/-- C2: a failure that is an APIError with status 408 or any other 4xx
status different from 429 is not retried: requestWithRetry performs
exactly one attempt and re-raises that APIError unchanged. -/
theorem claim_no_retry_on_4xx (api : RawfinAPI) (results : Nat → FetchResult)
    (e : APIError)
    (h1 : RawfinAPI.requestOutcome (results 1) = Except.error (Thrown.api e))
    (h400 : 400 ≤ e.status) (h499 : e.status ≤ 499) (h429 : e.status ≠ 429) :
    RawfinAPI.requestWithRetry api results 1 =
      { result := Except.error (Thrown.api e), delays := [], attempts := [1] } := by
  have hsr : RawfinAPI.shouldRetry (Thrown.api e) = false := by
    simp only [RawfinAPI.shouldRetry, decide_eq_false_iff_not]
    omega
  rw [RawfinAPI.requestWithRetry, h1]
  simp [hsr]

/-- Fetch outcomes where every attempt is rejected with an AbortError, as
when the per-request timeout fires on every try. -/
def timeoutResults : Nat → FetchResult :=
  fun _ => FetchResult.reject { name := "AbortError", message := "The operation was aborted" }

/-- Witness for C2 at a concrete input: the 408 timeout APIError is
returned after a single attempt with no delay. -/
theorem claim_no_retry_on_4xx_witness :
    RawfinAPI.requestWithRetry RawfinAPI.defaultClient timeoutResults 1 =
      { result := Except.error (Thrown.api { message := "Request timeout", status := 408 })
        delays := [], attempts := [1] } :=
  claim_no_retry_on_4xx RawfinAPI.defaultClient timeoutResults
    { message := "Request timeout", status := 408 }
    (by decide) (by decide) (by decide) (by decide)

/-- C3: a transport-level rejection whose error is not named AbortError
has the timer cleared and the original error object re-raised unchanged
(not wrapped in APIError), and requestWithRetry performs exactly one
attempt, returning that same object. -/
theorem claim_transport_failure_single_attempt (api : RawfinAPI)
    (results : Nat → FetchResult) (e : JsError)
    (hname : e.name ≠ "AbortError") (hfr : results 1 = FetchResult.reject e) :
    RawfinAPI.requestRun (FetchResult.reject e) =
      { outcome := Except.error (Thrown.js e), timeoutCleared := true } ∧
    RawfinAPI.requestWithRetry api results 1 =
      { result := Except.error (Thrown.js e), delays := [], attempts := [1] } := by
  have hrun : RawfinAPI.requestRun (FetchResult.reject e) =
      { outcome := Except.error (Thrown.js e), timeoutCleared := true } := by
    simp [RawfinAPI.requestRun, RawfinAPI.tryBlock, Thrown.errName, hname]
  refine ⟨hrun, ?_⟩
  have hout : RawfinAPI.requestOutcome (results 1) = Except.error (Thrown.js e) := by
    rw [RawfinAPI.requestOutcome, hfr, hrun]
  rw [RawfinAPI.requestWithRetry, hout]
  simp [RawfinAPI.shouldRetry]

/-- Fetch outcomes where every attempt is rejected with a DNS-style
transport error. -/
def transportFailResults : Nat → FetchResult :=
  fun _ => FetchResult.reject { name := "TypeError", message := "Failed to fetch" }

/-- Witness for C3 at a concrete input: a TypeError rejection is returned
unchanged after one attempt, with the timer cleared. -/
theorem claim_transport_failure_single_attempt_witness :
    RawfinAPI.requestRun (FetchResult.reject { name := "TypeError", message := "Failed to fetch" }) =
      { outcome := Except.error (Thrown.js { name := "TypeError", message := "Failed to fetch" })
        timeoutCleared := true } ∧
    RawfinAPI.requestWithRetry RawfinAPI.defaultClient transportFailResults 1 =
      { result := Except.error (Thrown.js { name := "TypeError", message := "Failed to fetch" })
        delays := [], attempts := [1] } :=
  claim_transport_failure_single_attempt RawfinAPI.defaultClient transportFailResults
    { name := "TypeError", message := "Failed to fetch" } (by decide) rfl

/-- C4: a transport-reported cancellation (an error named AbortError) makes
request fail with APIError(Request timeout, 408) whose data is the empty
object, whatever the underlying message, and the timer is cleared. -/
theorem claim_abort_maps_to_timeout_408 (e : JsError) (hname : e.name = "AbortError") :
    RawfinAPI.requestRun (FetchResult.reject e) =
      { outcome := Except.error (Thrown.api
          { name := "APIError", message := "Request timeout", status := 408
            data := JsValue.obj [] })
        timeoutCleared := true } := by
  simp [RawfinAPI.requestRun, RawfinAPI.tryBlock, Thrown.errName, hname]

/-- Witness for C4 at a concrete input: an AbortError rejection with an
arbitrary message maps to the 408 timeout APIError. -/
theorem claim_abort_maps_to_timeout_408_witness :
    RawfinAPI.requestRun (FetchResult.reject { name := "AbortError", message := "signal aborted" }) =
      { outcome := Except.error (Thrown.api
          { name := "APIError", message := "Request timeout", status := 408
            data := JsValue.obj [] })
        timeoutCleared := true } :=
  claim_abort_maps_to_timeout_408 { name := "AbortError", message := "signal aborted" } rfl

/-- Helper for C1: starting from attempt a with n attempts left before the
cap, when every attempt up to retryAttempts fails retryably, the recursion
walks attempts a, a+1, ..., retryAttempts, waits retryDelay * k after each
failing attempt k below the cap, and ends with the outcome of the final
attempt. -/
theorem requestWithRetry_exhaust (api : RawfinAPI) (results : Nat → FetchResult) :
    ∀ (n a : Nat), 1 ≤ a → a + n = api.retryAttempts →
    (∀ k, a ≤ k → k ≤ api.retryAttempts → RawfinAPI.retryableOutcome (results k) = true) →
    RawfinAPI.requestWithRetry api results a =
      { result := RawfinAPI.requestOutcome (results api.retryAttempts)
        delays := (List.range' a n).map (fun k => api.retryDelay * k)
        attempts := List.range' a (n + 1) } := by
  intro n
  induction n with
  | zero =>
    intro a ha hsum hall
    have hk := hall a le_rfl (by omega)
    rw [RawfinAPI.retryableOutcome] at hk
    cases hout : RawfinAPI.requestOutcome (results a) with
    | ok v => rw [hout] at hk; simp at hk
    | error e =>
      rw [hout] at hk
      have hguard : ¬ (a < api.retryAttempts ∧ RawfinAPI.shouldRetry e = true) := by
        intro hc
        omega
      rw [RawfinAPI.requestWithRetry, hout]
      have haR : api.retryAttempts = a := by omega
      simp [hguard, List.range', haR, hout]
  | succ n ih =>
    intro a ha hsum hall
    have hk := hall a le_rfl (by omega)
    rw [RawfinAPI.retryableOutcome] at hk
    cases hout : RawfinAPI.requestOutcome (results a) with
    | ok v => rw [hout] at hk; simp at hk
    | error e =>
      rw [hout] at hk
      have hguard : a < api.retryAttempts ∧ RawfinAPI.shouldRetry e = true :=
        ⟨by omega, hk⟩
      rw [RawfinAPI.requestWithRetry, hout]
      simp only [hguard, and_self, dif_pos]
      rw [ih (a + 1) (by omega) (by omega) (fun k h1 h2 => hall k (by omega) h2)]
      simp [List.range']

/-- C1: with the constructed client, retryAttempts is 3 and retryDelay is
1000 ms; for any client and any run in which every attempt fails with an
APIError of status at least 500 or exactly 429, requestWithRetry starting
at attempt 1 uses attempts 1 through retryAttempts (retryAttempts calls in
total), inserts a delay of retryDelay * N after each failing attempt N
before its retry (linear backoff), and propagates the outcome of the last
attempt unchanged. -/
theorem claim_retry_linear_backoff :
    RawfinAPI.defaultClient.retryAttempts = 3 ∧
    RawfinAPI.defaultClient.retryDelay = 1000 ∧
    ∀ (api : RawfinAPI) (results : Nat → FetchResult),
      1 ≤ api.retryAttempts →
      (∀ k, k ≤ api.retryAttempts → 1 ≤ k → RawfinAPI.retryableOutcome (results k) = true) →
      RawfinAPI.requestWithRetry api results 1 =
        { result := RawfinAPI.requestOutcome (results api.retryAttempts)
          delays := (List.range' 1 (api.retryAttempts - 1)).map (fun k => api.retryDelay * k)
          attempts := List.range' 1 api.retryAttempts } := by
  refine ⟨rfl, rfl, ?_⟩
  intro api results hR hall
  have h := requestWithRetry_exhaust api results (api.retryAttempts - 1) 1 le_rfl (by omega)
    (fun k h1 h2 => hall k h2 h1)
  have hn : api.retryAttempts - 1 + 1 = api.retryAttempts := by omega
  rw [h, hn]

/-- Fetch outcomes where every attempt gets a 503 response. -/
def unavailableResults : Nat → FetchResult :=
  fun _ => FetchResult.response 503 (Except.ok (JsValue.obj []))

/-- Witness for C1 at a concrete input: three 503 failures give three
attempts, delays of 1000 and 2000 ms, and the final 503 APIError. -/
theorem claim_retry_linear_backoff_witness :
    RawfinAPI.requestWithRetry RawfinAPI.defaultClient unavailableResults 1 =
      { result := Except.error (Thrown.api { message := "API Error: 503", status := 503 })
        delays := [1000, 2000]
        attempts := [1, 2, 3] } :=
  (claim_retry_linear_backoff.2.2 RawfinAPI.defaultClient unavailableResults
    (by decide) (by decide)).trans (by decide)

/-- C5: evaluation of the code at the failing input. When the caller
supplies a headers mapping that does not mention Content-Type, the
trailing spread of options overwrites the merged headers object, so the
outgoing headers are exactly the caller mapping and the default
Content-Type: application/json is absent. -/
theorem claim_content_type_dropped_on_caller_headers :
    RawfinAPI.requestHeaders none
        { headers := some [("X-Requested-With", "XMLHttpRequest")] } =
      [("X-Requested-With", "XMLHttpRequest")] ∧
    List.lookup "Content-Type"
      (RawfinAPI.requestHeaders none
        { headers := some [("X-Requested-With", "XMLHttpRequest")] }) = none := by
  decide

/-- C6 counterexample: with no stored token but a caller-supplied headers
mapping that itself contains an Authorization key, the outgoing request
does include an Authorization header, so the invariant as stated fails. -/
theorem claim_auth_header_counterexample :
    ¬ List.lookup "Authorization"
        (RawfinAPI.requestHeaders none
          { headers := some [("Authorization", "Bearer forged")] }) = none := by
  decide

/-- C6 amended: with a non-empty stored token every outgoing request
carries Authorization: Bearer token (overriding any caller-supplied
value); with no token or an empty token, the outgoing headers contain an
Authorization key only if the caller-supplied headers mapping contains
one, so in particular the header is absent whenever the caller headers do
not mention Authorization. -/
theorem claim_auth_header_amended (token : Option String) (opts : RequestOptions) :
    (∀ t, token = some t → t ≠ "" →
       List.lookup "Authorization" (RawfinAPI.requestHeaders token opts) =
         some ("Bearer " ++ t)) ∧
    (jsTruthyStr token = false →
       (opts.headers.getD []).all (fun p => !(p.1 == "Authorization")) = true →
       List.lookup "Authorization" (RawfinAPI.requestHeaders token opts) = none) := by
  constructor
  · intro t hteq hne
    subst hteq
    have htr : jsTruthyStr (some t) = true := by
      simp [jsTruthyStr, hne]
    rw [RawfinAPI.requestHeaders]
    simp only [htr, if_true, Option.getD]
    exact lookup_jsObjSet_self _ "Authorization" ("Bearer " ++ t)
  · intro hfalse hnone
    rw [RawfinAPI.requestHeaders]
    simp only [hfalse, Bool.false_eq_true, if_false]
    cases hh : opts.headers with
    | some hs =>
      rw [RawfinAPI.configHeaders, hh]
      rw [hh] at hnone
      exact lookup_eq_none_of_no_key "Authorization" hs hnone
    | none =>
      rw [RawfinAPI.configHeaders, hh]
      decide

/-- Witness for the amended C6 at concrete inputs: a stored token tok123
yields the bearer header, and no token with caller headers free of an
Authorization key yields no Authorization header. -/
theorem claim_auth_header_amended_witness :
    List.lookup "Authorization" (RawfinAPI.requestHeaders (some "tok123") {}) =
      some ("Bearer " ++ "tok123") ∧
    List.lookup "Authorization"
      (RawfinAPI.requestHeaders none { headers := some [("X-Requested-With", "1")] }) = none :=
  ⟨(claim_auth_header_amended (some "tok123") {}).1 "tok123" rfl (by decide),
   (claim_auth_header_amended none { headers := some [("X-Requested-With", "1")] }).2
     (by decide) (by decide)⟩

/-- C7: logout clears both storage slots whatever the fetch outcome of the
backend POST, and a failing backend call is swallowed: the caller gets
undefined, never the failure. -/
theorem claim_logout_always_clears (st : Storage) (fr : FetchResult) :
    (AuthAPI.logout st fr).1.token = none ∧
    (AuthAPI.logout st fr).1.userData = none ∧
    (∀ e, RawfinAPI.requestOutcome fr = Except.error e →
       (AuthAPI.logout st fr).2 = none) := by
  cases hout : RawfinAPI.requestOutcome fr with
  | ok v =>
    simp [AuthAPI.logout, hout, Storage.setAuthToken, Storage.setUserData,
      jsTruthyStr, jsTruthyVal]
  | error e =>
    simp [AuthAPI.logout, hout, Storage.setAuthToken, Storage.setUserData,
      jsTruthyStr, jsTruthyVal]

/-- Witness for C7 at a concrete input: a populated session plus a failing
backend logout call still ends with both slots cleared and no failure. -/
theorem claim_logout_always_clears_witness :
    (AuthAPI.logout { token := some "tok", userData := some (JsValue.obj [("name", "u")]) }
        (FetchResult.reject { name := "TypeError", message := "Failed to fetch" })).1.token = none ∧
    (AuthAPI.logout { token := some "tok", userData := some (JsValue.obj [("name", "u")]) }
        (FetchResult.reject { name := "TypeError", message := "Failed to fetch" })).1.userData = none ∧
    (AuthAPI.logout { token := some "tok", userData := some (JsValue.obj [("name", "u")]) }
        (FetchResult.reject { name := "TypeError", message := "Failed to fetch" })).2 = none :=
  ⟨(claim_logout_always_clears _ _).1,
   (claim_logout_always_clears _ _).2.1,
   (claim_logout_always_clears
      { token := some "tok", userData := some (JsValue.obj [("name", "u")]) }
      (FetchResult.reject { name := "TypeError", message := "Failed to fetch" })).2.2
     (Thrown.js { name := "TypeError", message := "Failed to fetch" }) (by decide)⟩

/-- C8: getProfile on a successful fetch of a truthy profile stores it,
leaves the token untouched and returns it; on any failure it re-raises
the original failure after the logout cascade, after which
isAuthenticated is false. -/
theorem claim_getProfile_cascade (st : Storage) (fr logoutFr : FetchResult) :
    (∀ v, RawfinAPI.requestOutcome fr = Except.ok v → v.isTruthy = true →
       (AuthAPI.getProfile st fr logoutFr).1.userData = some v ∧
       (AuthAPI.getProfile st fr logoutFr).1.token = st.token ∧
       (AuthAPI.getProfile st fr logoutFr).2 = Except.ok v) ∧
    (∀ e, RawfinAPI.requestOutcome fr = Except.error e →
       (AuthAPI.getProfile st fr logoutFr).2 = Except.error e ∧
       AuthAPI.isAuthenticated (AuthAPI.getProfile st fr logoutFr).1 = false) := by
  cases hout : RawfinAPI.requestOutcome fr with
  | ok v =>
    constructor
    · intro w hw htr
      have hv : v = w := by
        injection hw
      subst hv
      simp [AuthAPI.getProfile, hout, Storage.setUserData, jsTruthyVal, htr]
    · intro e he
      exact absurd he (by simp)
  | error e0 =>
    constructor
    · intro w hw htr
      exact absurd hw (by simp)
    · intro e he
      have he0 : e0 = e := by
        injection he
      subst he0
      refine ⟨by simp [AuthAPI.getProfile, hout], ?_⟩
      cases hl : RawfinAPI.requestOutcome logoutFr with
      | ok w =>
        simp [AuthAPI.getProfile, hout, AuthAPI.logout, hl, AuthAPI.isAuthenticated,
          Storage.getAuthToken, Storage.setAuthToken, Storage.setUserData,
          jsTruthyStr, jsTruthyVal]
      | error w =>
        simp [AuthAPI.getProfile, hout, AuthAPI.logout, hl, AuthAPI.isAuthenticated,
          Storage.getAuthToken, Storage.setAuthToken, Storage.setUserData,
          jsTruthyStr, jsTruthyVal]

/-- Witness for C8 at concrete inputs: a 200 profile response is stored and
returned with the token kept, and a 500 response is re-raised with
isAuthenticated false afterwards. -/
theorem claim_getProfile_cascade_witness :
    (AuthAPI.getProfile { token := some "tok" }
        (FetchResult.response 200 (Except.ok (JsValue.obj [("name", "u")])))
        (FetchResult.response 200 (Except.ok (JsValue.obj [])))).1.userData =
      some (JsValue.obj [("name", "u")]) ∧
    (AuthAPI.getProfile { token := some "tok" }
        (FetchResult.response 200 (Except.ok (JsValue.obj [("name", "u")])))
        (FetchResult.response 200 (Except.ok (JsValue.obj [])))).2 =
      Except.ok (JsValue.obj [("name", "u")]) ∧
    (AuthAPI.getProfile { token := some "tok" }
        (FetchResult.response 500 (Except.ok (JsValue.obj [])))
        (FetchResult.response 200 (Except.ok (JsValue.obj [])))).2 =
      Except.error (Thrown.api { message := "API Error: 500", status := 500 }) ∧
    AuthAPI.isAuthenticated
      (AuthAPI.getProfile { token := some "tok" }
        (FetchResult.response 500 (Except.ok (JsValue.obj [])))
        (FetchResult.response 200 (Except.ok (JsValue.obj [])))).1 = false :=
  ⟨((claim_getProfile_cascade { token := some "tok" }
      (FetchResult.response 200 (Except.ok (JsValue.obj [("name", "u")])))
      (FetchResult.response 200 (Except.ok (JsValue.obj [])))).1
      (JsValue.obj [("name", "u")]) (by decide) (by decide)).1,
   ((claim_getProfile_cascade { token := some "tok" }
      (FetchResult.response 200 (Except.ok (JsValue.obj [("name", "u")])))
      (FetchResult.response 200 (Except.ok (JsValue.obj [])))).1
      (JsValue.obj [("name", "u")]) (by decide) (by decide)).2.2,
   ((claim_getProfile_cascade { token := some "tok" }
      (FetchResult.response 500 (Except.ok (JsValue.obj [])))
      (FetchResult.response 200 (Except.ok (JsValue.obj [])))).2
      (Thrown.api { message := "API Error: 500", status := 500 }) (by decide)).1,
   ((claim_getProfile_cascade { token := some "tok" }
      (FetchResult.response 500 (Except.ok (JsValue.obj [])))
      (FetchResult.response 200 (Except.ok (JsValue.obj [])))).2
      (Thrown.api { message := "API Error: 500", status := 500 }) (by decide)).2⟩

/-- C9: getRecent issues exactly one request, a GET with no body whose URL
appends /episodes/recent?limit=<n> to the configured base URL; in
particular, with base https://x/api and limit 6 the single call is
GET https://x/api/episodes/recent?limit=6. -/
theorem claim_getRecent_single_get :
    (∀ (api : RawfinAPI) (token : Option String) (n : Nat),
       EpisodesAPI.getRecent api token n =
         [{ url := api.baseURL ++ ("/episodes/recent?limit=" ++ toString n)
            method := "GET"
            headers := RawfinAPI.requestHeaders token {}
            body := none }]) ∧
    EpisodesAPI.getRecent { baseURL := "https://x/api" } none 6 =
      [{ url := "https://x/api/episodes/recent?limit=6"
         method := "GET"
         headers := [("Content-Type", "application/json")]
         body := none }] := by
  constructor
  · intro api token n
    rfl
  · decide

/-- Helper: setUserData never touches the token slot. -/
theorem setUserData_token (st : Storage) (d : Option JsValue) :
    (Storage.setUserData st d).token = st.token := by
  rw [Storage.setUserData]
  split <;> rfl

/-- C10: when the page path includes the auth-callback marker, a truthy
token query parameter takes the token branch: no notice is shown, the
token is stored, a profile fetch is started, and on its success the page
navigates to the root immediately; otherwise a truthy error parameter
shows the failure notice and schedules a navigation to the root after
3000 ms, leaving storage untouched. The token branch excludes the error
branch. -/
theorem claim_auth_callback_branches (st : Storage) (pathname : String)
    (query : List (String × String)) (profileFr logoutFr : FetchResult)
    (hpath : jsIncludes pathname "/auth/callback" = true) :
    (∀ t, List.lookup "token" query = some t → t ≠ "" →
       (handleAuthCallback st pathname query profileFr logoutFr).2.pageNotice = none ∧
       (handleAuthCallback st pathname query profileFr logoutFr).2.profileFetchAttempted = true ∧
       (∀ v, RawfinAPI.requestOutcome profileFr = Except.ok v →
          (handleAuthCallback st pathname query profileFr logoutFr).1.token = some t ∧
          (handleAuthCallback st pathname query profileFr logoutFr).2.navigations = [("/", 0)])) ∧
    (jsTruthyStr (List.lookup "token" query) = false →
       ∀ er, List.lookup "error" query = some er → er ≠ "" →
       handleAuthCallback st pathname query profileFr logoutFr =
         (st, { navigations := [("/", 3000)]
                pageNotice := some ("Authentication failed. Please try again.", "error")
                profileFetchAttempted := false })) := by
  constructor
  · intro t ht hne
    have httok : jsTruthyStr (some t) = true := by simp [jsTruthyStr, hne]
    cases hout : RawfinAPI.requestOutcome profileFr with
    | ok v =>
      have hcb : handleAuthCallback st pathname query profileFr logoutFr =
          (Storage.setUserData (Storage.setAuthToken st (some t)) (some v),
           { navigations := [("/", 0)], pageNotice := none, profileFetchAttempted := true }) := by
        rw [handleAuthCallback, ht]
        simp only [hpath, httok, if_true]
        rw [AuthAPI.getProfile, hout]
      refine ⟨by rw [hcb], by rw [hcb], ?_⟩
      intro w hw
      have hv : v = w := by injection hw
      subst hv
      refine ⟨?_, by rw [hcb]⟩
      rw [hcb, setUserData_token, Storage.setAuthToken]
      simp [httok]
    | error e =>
      have hcb : handleAuthCallback st pathname query profileFr logoutFr =
          ((AuthAPI.logout (Storage.setAuthToken st (some t)) logoutFr).1,
           { navigations := [], pageNotice := none, profileFetchAttempted := true }) := by
        rw [handleAuthCallback, ht]
        simp only [hpath, httok, if_true]
        rw [AuthAPI.getProfile, hout]
      refine ⟨by rw [hcb], by rw [hcb], ?_⟩
      intro w hw
      exact absurd hw (by simp)
  · intro hfalse er her hne
    have herr : jsTruthyStr (List.lookup "error" query) = true := by
      rw [her]
      simp [jsTruthyStr, hne]
    simp [handleAuthCallback, hpath, hfalse, herr]

/-- Witness for C10 at concrete inputs: loading /auth/callback?token=abc
with a succeeding profile fetch stores abc and navigates to the root at
once, and loading /auth/callback?error=denied shows the failure notice
and schedules the 3000 ms navigation with storage untouched. -/
theorem claim_auth_callback_branches_witness :
    (handleAuthCallback {} "/auth/callback" [("token", "abc")]
        (FetchResult.response 200 (Except.ok (JsValue.obj [("name", "u")])))
        (FetchResult.response 200 (Except.ok (JsValue.obj [])))).1.token = some "abc" ∧
    (handleAuthCallback {} "/auth/callback" [("token", "abc")]
        (FetchResult.response 200 (Except.ok (JsValue.obj [("name", "u")])))
        (FetchResult.response 200 (Except.ok (JsValue.obj [])))).2.navigations = [("/", 0)] ∧
    (handleAuthCallback {} "/auth/callback" [("token", "abc")]
        (FetchResult.response 200 (Except.ok (JsValue.obj [("name", "u")])))
        (FetchResult.response 200 (Except.ok (JsValue.obj [])))).2.pageNotice = none ∧
    handleAuthCallback {} "/auth/callback" [("error", "denied")]
        (FetchResult.response 200 (Except.ok (JsValue.obj [("name", "u")])))
        (FetchResult.response 200 (Except.ok (JsValue.obj []))) =
      ({}, { navigations := [("/", 3000)]
             pageNotice := some ("Authentication failed. Please try again.", "error")
             profileFetchAttempted := false }) :=
  ⟨(((claim_auth_callback_branches {} "/auth/callback" [("token", "abc")]
        (FetchResult.response 200 (Except.ok (JsValue.obj [("name", "u")])))
        (FetchResult.response 200 (Except.ok (JsValue.obj []))) (by decide)).1
        "abc" (by decide) (by decide)).2.2 (JsValue.obj [("name", "u")]) (by decide)).1,
   (((claim_auth_callback_branches {} "/auth/callback" [("token", "abc")]
        (FetchResult.response 200 (Except.ok (JsValue.obj [("name", "u")])))
        (FetchResult.response 200 (Except.ok (JsValue.obj []))) (by decide)).1
        "abc" (by decide) (by decide)).2.2 (JsValue.obj [("name", "u")]) (by decide)).2,
   ((claim_auth_callback_branches {} "/auth/callback" [("token", "abc")]
        (FetchResult.response 200 (Except.ok (JsValue.obj [("name", "u")])))
        (FetchResult.response 200 (Except.ok (JsValue.obj []))) (by decide)).1
        "abc" (by decide) (by decide)).1,
   (claim_auth_callback_branches {} "/auth/callback" [("error", "denied")]
        (FetchResult.response 200 (Except.ok (JsValue.obj [("name", "u")])))
        (FetchResult.response 200 (Except.ok (JsValue.obj []))) (by decide)).2
     (by decide) "denied" (by decide) (by decide)⟩
